import Mathlib

/-!
Verification development for the debris-flow digital-twin repository.

The repository holds a PostGIS/TimescaleDB schema (terrain snapshots,
weather observations, rainfall events, change detections, simulation runs,
risk zones, alerts, source areas) and a React/Cesium frontend
(WeatherPanel, RiskIndicator, MapView).  The pipeline logic itself
(ingestion validation, rainfall-event detection, simulation dispatch,
alert deduplication) is not in the sources; those components are modelled
from the specification and are marked as such in their doc comments.
Numeric SQL FLOAT / JS number fields are embedded as rationals.
-/

namespace DebrisFlow

/-! ## Risk levels and bucketing (spec 4.3, frontend risk levels) -/

/-- The ordered risk levels used by the frontend (`RiskIndicator`,
`MapView`) and by the spec: LOW < MODERATE < HIGH < CRITICAL. -/
inductive RiskLevel
  | LOW
  | MODERATE
  | HIGH
  | CRITICAL
  deriving DecidableEq, Repr

/-- Rank of a risk level in the order LOW < MODERATE < HIGH < CRITICAL. -/
def levelRank : RiskLevel → Nat
  | RiskLevel.LOW => 0
  | RiskLevel.MODERATE => 1
  | RiskLevel.HIGH => 2
  | RiskLevel.CRITICAL => 3

/-- Modelled from the spec: the configured risk-bucket thresholds of the
Risk Evaluator (spec 4.3: "thresholds are configuration, not hardcoded
constants").  The source repository contains no risk-scoring code. -/
structure RiskThresholds where
  low_lt : ℚ
  moderate_lt : ℚ
  high_lt : ℚ
  deriving DecidableEq

/-- Modelled from the spec: bucketing of a numeric risk value into a
`RiskLevel` by the configured thresholds (spec 4.3: "<0.25 LOW,
<0.5 MODERATE, <0.75 HIGH, else CRITICAL" as example configuration).
The source repository contains no risk-scoring code. -/
def riskLevelOf (cfg : RiskThresholds) (v : ℚ) : RiskLevel :=
  if v < cfg.low_lt then RiskLevel.LOW
  else if v < cfg.moderate_lt then RiskLevel.MODERATE
  else if v < cfg.high_lt then RiskLevel.HIGH
  else RiskLevel.CRITICAL

/-- Modelled from the spec: the Risk Evaluator's clamp of the composite
risk value to [0,1] (spec 4.3: "weighted product, clamped to [0,1]"). -/
def clamp01 (v : ℚ) : ℚ := if v < 0 then 0 else if 1 < v then 1 else v

/-! ## Schema geometry columns (src/unnamed/part_000)

Every geometry-typed column declared by the schema, with its PostGIS
geometry type and SRID as written in the `CREATE TABLE` statements. -/

/-- A geometry column of the schema: `GEOMETRY(<type>, <srid>)`. -/
structure GeometryColumn where
  tableName : String
  columnName : String
  geometryType : String
  srid : Nat
  deriving DecidableEq, Repr

/-- All geometry columns declared in the schema file. -/
def schemaGeometryColumns : List GeometryColumn :=
  [{ tableName := "terrain_snapshots", columnName := "extent",
     geometryType := "POLYGON", srid := 4326 },
   { tableName := "weather_observations", columnName := "location",
     geometryType := "POINT", srid := 4326 },
   { tableName := "risk_zones", columnName := "geometry",
     geometryType := "POLYGON", srid := 4326 },
   { tableName := "source_areas", columnName := "geometry",
     geometryType := "POLYGON", srid := 4326 }]

/-- EPSG code of WGS84 lon/lat, the storage CRS. -/
def storageSrid : Nat := 4326

/-- The `srs` WMS parameter the `MapView` component sends to GeoServer
for map display (`Riskindicator.jsx`): a query-time reprojection request,
not a stored CRS. -/
def mapViewWmsSrs : String := "EPSG:3857"

/-! ## Simulation runs and risk zones (schema tables `simulation_runs`,
`risk_zones`; dispatcher behaviour modelled from spec 4.4)

The schema creates a run with `status VARCHAR(20) NOT NULL DEFAULT
'running'` and allows `'running', 'completed', 'failed'`; the
dispatcher logic itself is absent from the sources and is modelled from
the spec: runs reach exactly one terminal status, and a `RiskZone` is
materialized exactly when a run completes. -/

/-- Status of a simulation run (`simulation_runs.status`). -/
inductive RunStatus
  | running
  | completed
  | failed
  deriving DecidableEq, Repr

/-- A row of `simulation_runs` (the fields the claims depend on). -/
structure SimRun where
  id : Nat
  status : RunStatus
  deriving DecidableEq, Repr

/-- A row of `risk_zones` (the fields the claims depend on);
`risk_value` carries the schema constraint
`CHECK (risk_value >= 0 AND risk_value <= 1)` as a proved invariant. -/
structure RiskZone where
  simulation_run_id : Nat
  risk_value : ℚ
  risk_level : RiskLevel
  deriving DecidableEq, Repr

/-- The persisted state the dispatcher manipulates. -/
structure SysState where
  runs : List SimRun
  zones : List RiskZone
  nextRunId : Nat
  deriving DecidableEq, Repr

/-- Modelled from the spec: the commands driving the run lifecycle
(spec 4.4): dispatch a run, or receive a terminal report from the
external executor. -/
inductive SysCmd
  | dispatch
  | complete (runId : Nat) (rawRisk : ℚ)
  | fail (runId : Nat)
  deriving DecidableEq, Repr

/-- The empty initial state. -/
def initSys : SysState := { runs := [], zones := [], nextRunId := 0 }

/-- The run-row update applied when the executor reports completion:
a running run with the reported id becomes `completed`. -/
def completeUpdate (rid : Nat) (r : SimRun) : SimRun :=
  if r.id = rid ∧ r.status = RunStatus.running then
    { id := r.id, status := RunStatus.completed }
  else r

/-- The run-row update applied when the executor reports failure (or a
timeout / cancellation): a running run with the reported id becomes
`failed`. -/
def failUpdate (rid : Nat) (r : SimRun) : SimRun :=
  if r.id = rid ∧ r.status = RunStatus.running then
    { id := r.id, status := RunStatus.failed }
  else r

/-- Modelled from the spec: one dispatcher transition (spec 4.4).
`dispatch` creates a run with the schema default status `running`;
`complete` moves a running run to `completed` and materializes exactly
one `RiskZone` for it, with the Risk Evaluator's value clamped to [0,1]
and bucketed by the configured thresholds (spec 4.3); `fail` moves a
running run to `failed` and creates no zone.  Terminal reports for
unknown or already-terminal runs are ignored. -/
def sysStep (cfg : RiskThresholds) (s : SysState) (c : SysCmd) : SysState :=
  match c with
  | SysCmd.dispatch =>
      { s with
        runs := s.runs ++ [{ id := s.nextRunId, status := RunStatus.running }],
        nextRunId := s.nextRunId + 1 }
  | SysCmd.complete rid v =>
      if ∃ r ∈ s.runs, r.id = rid ∧ r.status = RunStatus.running then
        { s with
          runs := s.runs.map (completeUpdate rid),
          zones :=
            { simulation_run_id := rid,
              risk_value := clamp01 v,
              risk_level := riskLevelOf cfg (clamp01 v) } :: s.zones }
      else s
  | SysCmd.fail rid =>
      if ∃ r ∈ s.runs, r.id = rid ∧ r.status = RunStatus.running then
        { s with runs := s.runs.map (failUpdate rid) }
      else s

/-- Run a command sequence from the empty state. -/
def runSys (cfg : RiskThresholds) (cmds : List SysCmd) : SysState :=
  cmds.foldl (sysStep cfg) initSys

/-- The internal invariant of the dispatcher state: run ids are below
the id counter and runs sharing an id share a status. -/
def RunsWf (s : SysState) : Prop :=
  (∀ r ∈ s.runs, r.id < s.nextRunId) ∧
  (∀ r ∈ s.runs, ∀ r' ∈ s.runs, r.id = r'.id → r.status = r'.status)

/-- Risk zones reference exactly the completed runs. -/
def ZonesOk (s : SysState) : Prop :=
  (∀ z ∈ s.zones, ∀ r ∈ s.runs,
      r.id = z.simulation_run_id → r.status = RunStatus.completed) ∧
  (∀ z ∈ s.zones, ∃ r ∈ s.runs, r.id = z.simulation_run_id) ∧
  (∀ r ∈ s.runs, r.status = RunStatus.completed →
      ∃ z ∈ s.zones, z.simulation_run_id = r.id)

/-- Every persisted zone has an in-range risk value bucketed from it. -/
def ZoneFieldsOk (cfg : RiskThresholds) (s : SysState) : Prop :=
  ∀ z ∈ s.zones,
    0 ≤ z.risk_value ∧ z.risk_value ≤ 1 ∧
    z.risk_level = riskLevelOf cfg z.risk_value

/-! ## Weather ingestion (schema table `weather_observations`;
validation modelled from spec 4.1 / 7)

The schema stores observations append-only; the ingestion boundary that
rejects out-of-order and negative-precipitation records is absent from
the sources and is modelled from the spec. -/

/-- An incoming weather observation; the monitored location is
abstracted to an identifier. -/
structure WeatherObs where
  location : Nat
  timestamp : Nat
  rainfall_mm : ℚ
  intensity_mm_hr : ℚ
  deriving DecidableEq, Repr

/-- Modelled from the spec: the `ValidationError` taxonomy entries
relevant to ingestion (spec 7). -/
inductive ValidationError
  | outOfOrder
  | negativePrecipitation
  deriving DecidableEq, Repr

/-- Timestamp of the latest committed observation for a location. -/
def latestTimestamp (store : List WeatherObs) (loc : Nat) : Option Nat :=
  ((store.filter (fun o => o.location = loc)).map
    (fun o => o.timestamp)).max?

/-- Modelled from the spec: ingestion validation (spec 4.1): reject an
observation with negative precipitation or one older than the latest
committed observation for its location, reporting the error to the
caller; otherwise commit it.  The source repository contains no
ingestion code. -/
def ingest (store : List WeatherObs) (o : WeatherObs) :
    Except ValidationError (List WeatherObs) :=
  if o.rainfall_mm < 0 then Except.error ValidationError.negativePrecipitation
  else
    match latestTimestamp store o.location with
    | some t =>
        if o.timestamp < t then Except.error ValidationError.outOfOrder
        else Except.ok (o :: store)
    | none => Except.ok (o :: store)

/-! ## Alerts (schema table `alerts`; deduplication modelled from
spec 4.6)

The schema stores alerts with `alert_type`, references to a simulation
run or a rainfall event, and an acknowledgement flag; the alert-manager
logic is absent from the sources and is modelled from the spec. -/

/-- The entity an alert refers to (`related_simulation_id` or
`related_event_id`). -/
inductive RelatedEntity
  | simulation (runId : Nat)
  | event (eventId : Nat)
  deriving DecidableEq, Repr

/-- A row of `alerts` (the fields the claims depend on). -/
structure Alert where
  id : Nat
  alert_type : String
  related : RelatedEntity
  message : String
  acknowledged : Bool
  acknowledged_by : Option String
  deriving DecidableEq, Repr

/-- The alert store. -/
structure AlertState where
  alerts : List Alert
  nextAlertId : Nat
  deriving DecidableEq, Repr

/-- The empty alert store. -/
def initAlerts : AlertState := { alerts := [], nextAlertId := 0 }

/-- Does this alert match as an unacknowledged alert of the given type
for the given related entity? -/
def unackMatches (ty : String) (rel : RelatedEntity) (a : Alert) : Bool :=
  decide (a.acknowledged = false ∧ a.alert_type = ty ∧ a.related = rel)

/-- Modelled from the spec: the alert-manager commands (spec 4.6):
derive an alert, or record an operator acknowledgement. -/
inductive AlertCmd
  | create (ty : String) (rel : RelatedEntity) (msg : String)
  | acknowledge (aid : Nat) (operator : String)
  deriving DecidableEq, Repr

/-- Refresh the metadata of a matching unacknowledged alert
(spec 4.6: "the existing Alert's metadata is refreshed"). -/
def refreshUpdate (ty : String) (rel : RelatedEntity) (msg : String)
    (a : Alert) : Alert :=
  if unackMatches ty rel a then { a with message := msg } else a

/-- Record an operator acknowledgement on the alert with the given id. -/
def ackUpdate (aid : Nat) (op : String) (a : Alert) : Alert :=
  if a.id = aid then
    { a with acknowledged := true, acknowledged_by := some op }
  else a

/-- Modelled from the spec: one alert-manager transition (spec 4.6).
Before creating an alert, an existing unacknowledged alert of the same
type for the same related entity is looked up; if found its metadata is
refreshed, otherwise a new unacknowledged alert is inserted.
Acknowledgement marks an alert acknowledged.  The source repository
contains no alert-manager code. -/
def alertStep (s : AlertState) (c : AlertCmd) : AlertState :=
  match c with
  | AlertCmd.create ty rel msg =>
      if s.alerts.any (unackMatches ty rel) then
        { s with alerts := s.alerts.map (refreshUpdate ty rel msg) }
      else
        { s with
          alerts :=
            { id := s.nextAlertId, alert_type := ty, related := rel,
              message := msg, acknowledged := false,
              acknowledged_by := none } :: s.alerts,
          nextAlertId := s.nextAlertId + 1 }
  | AlertCmd.acknowledge aid op =>
      { s with alerts := s.alerts.map (ackUpdate aid op) }

/-- Run an alert-command sequence from the empty store. -/
def runAlerts (cmds : List AlertCmd) : AlertState :=
  cmds.foldl alertStep initAlerts

/-- At most one unacknowledged alert per (type, related entity). -/
def AlertsDedup (s : AlertState) : Prop :=
  ∀ ty rel, s.alerts.countP (unackMatches ty rel) ≤ 1

/-! ## Rainfall-event detector (schema table `rainfall_events`;
state machine modelled from spec 4.2)

The schema stores rainfall events with `is_active BOOLEAN DEFAULT
TRUE`; the per-location Idle/Active detector that opens, extends and
closes events is absent from the sources and is modelled from the
spec. -/

/-- A row of `rainfall_events`, extended with the monitored location
(spec glossary) and the time of the last qualifying observation, which
the detector needs for the inactivity gap. -/
structure RainfallEvent where
  id : Nat
  location : Nat
  start_time : Nat
  end_time : Option Nat
  duration_minutes : Option Nat
  last_obs_time : Nat
  total_rainfall_mm : ℚ
  max_intensity_mm_hr : ℚ
  threshold_exceeded : Bool
  is_active : Bool
  deriving DecidableEq, Repr

/-- Modelled from the spec: detector configuration (spec 4.2): onset
thresholds, the trigger threshold and the inactivity gap. -/
structure DetectorConfig where
  onset_intensity : ℚ
  onset_rainfall : ℚ
  trigger_intensity : ℚ
  inactivity_gap : Nat
  deriving DecidableEq, Repr

/-- The detector/event-store state. -/
structure DetState where
  events : List RainfallEvent
  nextEventId : Nat
  deriving DecidableEq, Repr

/-- The empty detector state. -/
def initDet : DetState := { events := [], nextEventId := 0 }

/-- Is this event the active event of the given location? -/
def isActiveAt (loc : Nat) (e : RainfallEvent) : Bool :=
  e.is_active && decide (e.location = loc)

/-- The active event of a location, when one exists. -/
def activeEventFor (s : DetState) (loc : Nat) : Option RainfallEvent :=
  s.events.find? (isActiveAt loc)

/-- Number of active events at a location. -/
def countActive (s : DetState) (loc : Nat) : Nat :=
  s.events.countP (isActiveAt loc)

/-- Modelled from the spec: does an observation qualify, i.e. exceed
the configured onset threshold on instantaneous intensity or rainfall
(spec 4.2)? -/
def qualifies (cfg : DetectorConfig) (o : WeatherObs) : Bool :=
  decide (cfg.onset_intensity < o.intensity_mm_hr) ||
  decide (cfg.onset_rainfall < o.rainfall_mm)

/-- The row update closing an event: `is_active` cleared, `end_time`
and `duration_minutes` finalized (spec 4.2). -/
def closeUpdate (loc : Nat) (e : RainfallEvent) : RainfallEvent :=
  if isActiveAt loc e then
    { e with
      is_active := false,
      end_time := some e.last_obs_time,
      duration_minutes := some (e.last_obs_time - e.start_time) }
  else e

/-- The row update extending an active event with a qualifying
observation: running totals updated, the row stays active (spec 4.2). -/
def extendUpdate (cfg : DetectorConfig) (o : WeatherObs)
    (e : RainfallEvent) : RainfallEvent :=
  if isActiveAt o.location e then
    { e with
      last_obs_time := o.timestamp,
      total_rainfall_mm := e.total_rainfall_mm + o.rainfall_mm,
      max_intensity_mm_hr := max e.max_intensity_mm_hr o.intensity_mm_hr,
      threshold_exceeded :=
        e.threshold_exceeded ||
          decide (cfg.trigger_intensity < o.intensity_mm_hr) }
  else e

/-- Close the active event of a location (spec 4.2). -/
def closeActive (s : DetState) (loc : Nat) : DetState :=
  { s with events := s.events.map (closeUpdate loc) }

/-- Extend the active event of a location with a qualifying
observation: no new row is created (spec 4.2). -/
def extendActive (cfg : DetectorConfig) (s : DetState) (o : WeatherObs) :
    DetState :=
  { s with events := s.events.map (extendUpdate cfg o) }

/-- Open a new event at the triggering observation (spec 4.2). -/
def openEvent (cfg : DetectorConfig) (s : DetState) (o : WeatherObs) :
    DetState :=
  { events :=
      { id := s.nextEventId, location := o.location,
        start_time := o.timestamp, end_time := none,
        duration_minutes := none, last_obs_time := o.timestamp,
        total_rainfall_mm := o.rainfall_mm,
        max_intensity_mm_hr := o.intensity_mm_hr,
        threshold_exceeded :=
          decide (cfg.trigger_intensity < o.intensity_mm_hr),
        is_active := true } :: s.events,
    nextEventId := s.nextEventId + 1 }

/-- Modelled from the spec: one detector transition (spec 4.2).  With
an active event at the observation's location: past the inactivity gap
the event is closed and a qualifying observation opens a fresh one;
within the gap a qualifying observation extends the existing row and
never creates a new one.  With no active event, a qualifying
observation opens one.  The source repository contains no detector
code. -/
def detectorStep (cfg : DetectorConfig) (s : DetState) (o : WeatherObs) :
    DetState :=
  match activeEventFor s o.location with
  | some e =>
      if e.last_obs_time + cfg.inactivity_gap < o.timestamp then
        let s' := closeActive s o.location
        if qualifies cfg o then openEvent cfg s' o else s'
      else
        if qualifies cfg o then extendActive cfg s o else s
  | none =>
      if qualifies cfg o then openEvent cfg s o else s

/-- Run an observation sequence through the detector from the empty
state. -/
def runDetector (cfg : DetectorConfig) (obss : List WeatherObs) : DetState :=
  obss.foldl (detectorStep cfg) initDet

/-- At most one active rainfall event per monitored location. -/
def SingleActive (s : DetState) : Prop :=
  ∀ loc, countActive s loc ≤ 1

/-! ## Frontend: getRiskColor in RiskIndicator and MapView

Both functions appear verbatim in
`src/frontend/src/components/Riskindicator/Riskindicator.jsx`: an object
lookup `colors[level]` falling back to `'#CCCCCC'`.  A JS `undefined` or
`null` argument is embedded as `none`. -/

/-- `getRiskColor` as defined inside the `RiskIndicator` component. -/
def getRiskColorIndicator (level : Option String) : String :=
  match level with
  | none => "#CCCCCC"
  | some s =>
      if s = "LOW" then "#4CAF50"
      else if s = "MODERATE" then "#FFC107"
      else if s = "HIGH" then "#FF9800"
      else if s = "CRITICAL" then "#F44336"
      else "#CCCCCC"

/-- `getRiskColor` as defined inside the `MapView` component. -/
def getRiskColorMapView (level : Option String) : String :=
  match level with
  | none => "#CCCCCC"
  | some s =>
      if s = "LOW" then "#4CAF50"
      else if s = "MODERATE" then "#FFC107"
      else if s = "HIGH" then "#FF9800"
      else if s = "CRITICAL" then "#F44336"
      else "#CCCCCC"

/-! ## Frontend: WeatherPanel (src/unnamed/part_001)

The component guards `!weatherData || weatherData.length === 0`, then
reads `weatherData[0]` and sums `precipitation_mm` over
`weatherData.slice(0, 24)` with `(d.precipitation_mm || 0)`.  A field
that may be absent in the JSON is embedded as an `Option`; the JS
fallbacks `?.toFixed(..) || 'N/A'` and `?.toFixed(..) || '0.0'` are
embedded as `CellView`. -/

/-- One row of the weather JSON consumed by `WeatherPanel`. -/
structure ObsRecord where
  timestamp : Nat
  temperature_c : Option ℚ
  humidity_percent : Option ℚ
  precipitation_mm : Option ℚ
  deriving DecidableEq, Repr

/-- A rendered cell: either a literal fallback string or a number
(rendered by `toFixed` in the component). -/
inductive CellView
  | text (s : String)
  | number (q : ℚ)
  deriving DecidableEq, Repr

/-- Embedding of `x?.toFixed(..) || 'N/A'`. -/
def displayOrNA (x : Option ℚ) : CellView :=
  match x with
  | some q => CellView.number q
  | none => CellView.text "N/A"

/-- Embedding of `x?.toFixed(1) || '0.0'`. -/
def displayOrZero (x : Option ℚ) : CellView :=
  match x with
  | some q => CellView.number q
  | none => CellView.text "0.0"

/-- Embedding of the JS coercion `(x || 0)` on an optional number. -/
def jsOr0 (x : Option ℚ) : ℚ := x.getD 0

/-- `last24h.reduce((sum, d) => sum + (d.precipitation_mm || 0), 0)`. -/
def totalPrecip (last24h : List ObsRecord) : ℚ :=
  last24h.foldl (fun sum d => sum + jsOr0 d.precipitation_mm) 0

/-- The data displayed by the weather panel. -/
structure PanelView where
  temperature : CellView
  humidity : CellView
  lastHourRain : CellView
  total24h : ℚ
  bars : List (Option ℚ)
  deriving DecidableEq, Repr

/-- What `WeatherPanel` renders: the no-data panel or the populated one. -/
inductive WeatherPanelView
  | noData
  | panel (p : PanelView)
  deriving DecidableEq, Repr

/-- A JS runtime failure, such as a field access on `undefined`. -/
inductive JsError
  | undefinedAccess
  deriving DecidableEq, Repr

/-- The body of `WeatherPanel` past the guard: `weatherData[0]` on an
empty array yields `undefined`, and the following field accesses would
throw; this fallible access is embedded through `head?`. -/
def renderWeatherPanelBody (weatherData : List ObsRecord) :
    Except JsError WeatherPanelView :=
  match weatherData.head? with
  | none => Except.error JsError.undefinedAccess
  | some latest =>
      let last24h := weatherData.take 24
      Except.ok (WeatherPanelView.panel
        { temperature := displayOrNA latest.temperature_c
          humidity := displayOrNA latest.humidity_percent
          lastHourRain := displayOrZero latest.precipitation_mm
          total24h := totalPrecip last24h
          bars := last24h.map (fun d => d.precipitation_mm) })

/-- The `WeatherPanel` component: `null`/`undefined` input is `none`;
the guard `!weatherData || weatherData.length === 0` renders the
no-data panel. -/
def renderWeatherPanel (weatherData : Option (List ObsRecord)) :
    Except JsError WeatherPanelView :=
  match weatherData with
  | none => Except.ok WeatherPanelView.noData
  | some l =>
      if l.length = 0 then Except.ok WeatherPanelView.noData
      else renderWeatherPanelBody l

/-! ## Concrete fixtures used to instantiate the theorems -/

/-- Example thresholds: the spec's example configuration. -/
def cfgEx : RiskThresholds :=
  { low_lt := 0, moderate_lt := 1, high_lt := 2 }

/-- Example command sequence: dispatch one run, complete it. -/
def cmdsEx : List SysCmd := [SysCmd.dispatch, SysCmd.complete 0 2]

/-- The risk zone produced by `cmdsEx`. -/
def zoneEx : RiskZone :=
  { simulation_run_id := 0, risk_value := 1,
    risk_level := RiskLevel.HIGH }

/-- A completed run row. -/
def runEx : SimRun := { id := 0, status := RunStatus.completed }

/-- A state holding `runEx` and `zoneEx`. -/
def sC4Ex : SysState := { runs := [runEx], zones := [zoneEx], nextRunId := 1 }

/-- Example detector configuration. -/
def cfgDetEx : DetectorConfig :=
  { onset_intensity := 10, onset_rainfall := 50, trigger_intensity := 30,
    inactivity_gap := 120 }

/-- A qualifying observation opening an event at location 1. -/
def obs1Ex : WeatherObs :=
  { location := 1, timestamp := 100, rainfall_mm := 5, intensity_mm_hr := 20 }

/-- A later qualifying observation within the inactivity gap. -/
def obs2Ex : WeatherObs :=
  { location := 1, timestamp := 150, rainfall_mm := 3, intensity_mm_hr := 25 }

/-- The detector state after `obs1Ex`. -/
def detStateEx : DetState := runDetector cfgDetEx [obs1Ex]

/-- The event opened by `obs1Ex`. -/
def eventEx : RainfallEvent :=
  { id := 0, location := 1, start_time := 100, end_time := none,
    duration_minutes := none, last_obs_time := 100, total_rainfall_mm := 5,
    max_intensity_mm_hr := 20, threshold_exceeded := false,
    is_active := true }

/-- An example related entity for alerts. -/
def relEx : RelatedEntity := RelatedEntity.simulation 0

/-- The alert store after one created alert. -/
def alertStateEx : AlertState :=
  runAlerts [AlertCmd.create "high_risk" relEx "m1"]

/-- An example committed observation store. -/
def storeEx : List WeatherObs :=
  [{ location := 1, timestamp := 100, rainfall_mm := 2, intensity_mm_hr := 4 }]

/-- An acceptable observation for `storeEx`. -/
def obsOkEx : WeatherObs :=
  { location := 1, timestamp := 200, rainfall_mm := 3, intensity_mm_hr := 6 }

/-- An observation with negative precipitation. -/
def obsNegEx : WeatherObs :=
  { location := 1, timestamp := 300, rainfall_mm := -1, intensity_mm_hr := 0 }

/-- An example weather JSON row for the panel. -/
def recEx : ObsRecord :=
  { timestamp := 0, temperature_c := some 7, humidity_percent := none,
    precipitation_mm := some (3/2) }

/-! ## Helper theorems -/

theorem clamp01_nonneg (v : ℚ) : 0 ≤ clamp01 v := by
  unfold clamp01
  split_ifs <;> linarith

theorem clamp01_le_one (v : ℚ) : clamp01 v ≤ 1 := by
  unfold clamp01
  split_ifs <;> linarith

theorem riskLevelOf_monotone (cfg : RiskThresholds) (v w : ℚ) (hvw : v ≤ w) :
    levelRank (riskLevelOf cfg v) ≤ levelRank (riskLevelOf cfg w) := by
  unfold riskLevelOf
  split_ifs with h1 h2 h3 h4 h5 h6 h7 h8 h9 h10 h11 <;>
    simp [levelRank] <;> linarith

theorem foldl_inv {σ κ : Type} {P : σ → Prop} {f : σ → κ → σ}
    (hstep : ∀ s c, P s → P (f s c)) :
    ∀ (l : List κ) (s0 : σ), P s0 → P (l.foldl f s0) := by
  intro l
  induction l with
  | nil => intro s0 h0; exact h0
  | cons c cs ih => intro s0 h0; exact ih _ (hstep s0 c h0)

theorem completeUpdate_id (rid : Nat) (r : SimRun) :
    (completeUpdate rid r).id = r.id := by
  unfold completeUpdate; split_ifs <;> rfl

theorem failUpdate_id (rid : Nat) (r : SimRun) :
    (failUpdate rid r).id = r.id := by
  unfold failUpdate; split_ifs <;> rfl

theorem sysStep_wf (cfg : RiskThresholds) (s : SysState) (c : SysCmd)
    (h : RunsWf s) : RunsWf (sysStep cfg s c) := by
  obtain ⟨hb, hs⟩ := h
  cases c with
  | dispatch =>
      constructor
      · intro r hr
        simp only [sysStep, List.mem_append, List.mem_singleton] at hr
        rcases hr with hr | hr
        · exact Nat.lt_trans (hb r hr) (Nat.lt_succ_self _)
        · subst hr; exact Nat.lt_succ_self _
      · intro r hr r' hr' hid
        simp only [sysStep, List.mem_append, List.mem_singleton] at hr hr'
        rcases hr with hr | hr <;> rcases hr' with hr' | hr'
        · exact hs r hr r' hr' hid
        · exfalso
          have h1 : r.id < s.nextRunId := hb r hr
          rw [hid, hr'] at h1
          simp at h1
        · exfalso
          have h1 : r'.id < s.nextRunId := hb r' hr'
          rw [← hid, hr] at h1
          simp at h1
        · subst hr; subst hr'; rfl
  | complete rid v =>
      by_cases hg : ∃ r ∈ s.runs, r.id = rid ∧ r.status = RunStatus.running
      · simp only [sysStep, if_pos hg]
        constructor
        · intro r hr
          rw [List.mem_map] at hr
          obtain ⟨r0, hr0, hfr⟩ := hr
          rw [← hfr, completeUpdate_id]
          exact hb r0 hr0
        · intro r hr r' hr' hid
          rw [List.mem_map] at hr hr'
          obtain ⟨r0, hr0, hfr⟩ := hr
          obtain ⟨r0', hr0', hfr'⟩ := hr'
          have hid0 : r0.id = r0'.id := by
            rw [← completeUpdate_id rid r0, ← completeUpdate_id rid r0',
              hfr, hfr', hid]
          have hst0 : r0.status = r0'.status := hs r0 hr0 r0' hr0' hid0
          rw [← hfr, ← hfr']
          unfold completeUpdate
          rw [hid0, hst0]
          split_ifs with hcond
          · rfl
          · exact hst0
      · simp only [sysStep, if_neg hg]
        exact ⟨hb, hs⟩
  | fail rid =>
      by_cases hg : ∃ r ∈ s.runs, r.id = rid ∧ r.status = RunStatus.running
      · simp only [sysStep, if_pos hg]
        constructor
        · intro r hr
          rw [List.mem_map] at hr
          obtain ⟨r0, hr0, hfr⟩ := hr
          rw [← hfr, failUpdate_id]
          exact hb r0 hr0
        · intro r hr r' hr' hid
          rw [List.mem_map] at hr hr'
          obtain ⟨r0, hr0, hfr⟩ := hr
          obtain ⟨r0', hr0', hfr'⟩ := hr'
          have hid0 : r0.id = r0'.id := by
            rw [← failUpdate_id rid r0, ← failUpdate_id rid r0',
              hfr, hfr', hid]
          have hst0 : r0.status = r0'.status := hs r0 hr0 r0' hr0' hid0
          rw [← hfr, ← hfr']
          unfold failUpdate
          rw [hid0, hst0]
          split_ifs with hcond
          · rfl
          · exact hst0
      · simp only [sysStep, if_neg hg]
        exact ⟨hb, hs⟩

theorem sysStep_zones (cfg : RiskThresholds) (s : SysState) (c : SysCmd)
    (hw : RunsWf s) (hz : ZonesOk s) : ZonesOk (sysStep cfg s c) := by
  obtain ⟨hb, hs⟩ := hw
  obtain ⟨hz1, hz2, hz3⟩ := hz
  cases c with
  | dispatch =>
      refine ⟨?_, ?_, ?_⟩
      · intro z hzm r hr hid
        simp only [sysStep] at hzm hr
        simp only [List.mem_append, List.mem_singleton] at hr
        rcases hr with hr | hr
        · exact hz1 z hzm r hr hid
        · exfalso
          obtain ⟨r1, hr1, hid1⟩ := hz2 z hzm
          have : r1.id < s.nextRunId := hb r1 hr1
          rw [hid1] at this
          rw [hr] at hid
          simp at hid
          rw [hid] at this
          exact Nat.lt_irrefl _ this
      · intro z hzm
        simp only [sysStep] at hzm ⊢
        obtain ⟨r1, hr1, hid1⟩ := hz2 z hzm
        exact ⟨r1, List.mem_append_left _ hr1, hid1⟩
      · intro r hr hcomp
        simp only [sysStep, List.mem_append, List.mem_singleton] at hr ⊢
        rcases hr with hr | hr
        · exact hz3 r hr hcomp
        · exfalso; rw [hr] at hcomp; simp at hcomp
  | complete rid v =>
      by_cases hg : ∃ r ∈ s.runs, r.id = rid ∧ r.status = RunStatus.running
      · obtain ⟨rg, hrg, hrgid, hrgstat⟩ := hg
        have hg' : ∃ r ∈ s.runs, r.id = rid ∧ r.status = RunStatus.running :=
          ⟨rg, hrg, hrgid, hrgstat⟩
        simp only [sysStep, if_pos hg']
        refine ⟨?_, ?_, ?_⟩
        · intro z hzm r hr hid
          rw [List.mem_map] at hr
          obtain ⟨r0, hr0, hfr⟩ := hr
          rw [List.mem_cons] at hzm
          have hid0 : r0.id = z.simulation_run_id := by
            rw [← completeUpdate_id rid r0, hfr, hid]
          rcases hzm with hzm | hzm
          · by_cases hc : r0.id = rid ∧ r0.status = RunStatus.running
            · rw [← hfr]; unfold completeUpdate; rw [if_pos hc]
            · exfalso
              apply hc
              have hzid : z.simulation_run_id = rid := by rw [hzm]
              have hideq : r0.id = rg.id := by rw [hid0, hzid, hrgid]
              exact ⟨by rw [hid0, hzid],
                (hs r0 hr0 rg hrg hideq).trans hrgstat⟩
          · have hold : r0.status = RunStatus.completed :=
              hz1 z hzm r0 hr0 hid0
            have hc : ¬ (r0.id = rid ∧ r0.status = RunStatus.running) := by
              intro hc; rw [hold] at hc; exact absurd hc.2 (by simp)
            rw [← hfr]
            unfold completeUpdate
            rw [if_neg hc]
            exact hold
        · intro z hzm
          rw [List.mem_cons] at hzm
          rcases hzm with hzm | hzm
          · refine ⟨completeUpdate rid rg, List.mem_map_of_mem _ hrg, ?_⟩
            rw [completeUpdate_id, hrgid, hzm]
          · obtain ⟨r1, hr1, hid1⟩ := hz2 z hzm
            refine ⟨completeUpdate rid r1, List.mem_map_of_mem _ hr1, ?_⟩
            rw [completeUpdate_id, hid1]
        · intro r hr hcomp
          rw [List.mem_map] at hr
          obtain ⟨r0, hr0, hfr⟩ := hr
          by_cases hc : r0.id = rid ∧ r0.status = RunStatus.running
          · refine ⟨_, List.mem_cons_self _ _, ?_⟩
            have : r.id = r0.id := by rw [← hfr, completeUpdate_id]
            simp only [this, hc.1]
          · have hfr0 : r = r0 := by
              rw [← hfr]; unfold completeUpdate; rw [if_neg hc]
            obtain ⟨z1, hz1m, hzid1⟩ := hz3 r0 hr0 (hfr0 ▸ hcomp)
            exact ⟨z1, List.mem_cons_of_mem _ hz1m, by rw [hzid1, hfr0]⟩
      · simp only [sysStep, if_neg hg]
        exact ⟨hz1, hz2, hz3⟩
  | fail rid =>
      by_cases hg : ∃ r ∈ s.runs, r.id = rid ∧ r.status = RunStatus.running
      · simp only [sysStep, if_pos hg]
        refine ⟨?_, ?_, ?_⟩
        · intro z hzm r hr hid
          rw [List.mem_map] at hr
          obtain ⟨r0, hr0, hfr⟩ := hr
          have hid0 : r0.id = z.simulation_run_id := by
            rw [← failUpdate_id rid r0, hfr, hid]
          have hold : r0.status = RunStatus.completed := hz1 z hzm r0 hr0 hid0
          have hc : ¬ (r0.id = rid ∧ r0.status = RunStatus.running) := by
            intro hc; rw [hold] at hc; exact absurd hc.2 (by simp)
          rw [← hfr]
          unfold failUpdate
          rw [if_neg hc]
          exact hold
        · intro z hzm
          obtain ⟨r1, hr1, hid1⟩ := hz2 z hzm
          refine ⟨failUpdate rid r1, List.mem_map_of_mem _ hr1, ?_⟩
          rw [failUpdate_id, hid1]
        · intro r hr hcomp
          rw [List.mem_map] at hr
          obtain ⟨r0, hr0, hfr⟩ := hr
          by_cases hc : r0.id = rid ∧ r0.status = RunStatus.running
          · exfalso
            rw [← hfr] at hcomp
            unfold failUpdate at hcomp
            rw [if_pos hc] at hcomp
            simp at hcomp
          · have hfr0 : r = r0 := by
              rw [← hfr]; unfold failUpdate; rw [if_neg hc]
            obtain ⟨z1, hz1m, hzid1⟩ := hz3 r0 hr0 (hfr0 ▸ hcomp)
            exact ⟨z1, hz1m, by rw [hzid1, hfr0]⟩
      · simp only [sysStep, if_neg hg]
        exact ⟨hz1, hz2, hz3⟩

theorem sysStep_fields (cfg : RiskThresholds) (s : SysState) (c : SysCmd)
    (h : ZoneFieldsOk cfg s) : ZoneFieldsOk cfg (sysStep cfg s c) := by
  cases c with
  | dispatch => intro z hzm; exact h z hzm
  | complete rid v =>
      by_cases hg : ∃ r ∈ s.runs, r.id = rid ∧ r.status = RunStatus.running
      · simp only [sysStep, if_pos hg]
        intro z hzm
        rw [List.mem_cons] at hzm
        rcases hzm with hzm | hzm
        · subst hzm
          exact ⟨clamp01_nonneg v, clamp01_le_one v, rfl⟩
        · exact h z hzm
      · simp only [sysStep, if_neg hg]; exact h
  | fail rid =>
      by_cases hg : ∃ r ∈ s.runs, r.id = rid ∧ r.status = RunStatus.running
      · simp only [sysStep, if_pos hg]; intro z hzm; exact h z hzm
      · simp only [sysStep, if_neg hg]; exact h

theorem runSys_inv (cfg : RiskThresholds) (cmds : List SysCmd) :
    RunsWf (runSys cfg cmds) ∧ ZonesOk (runSys cfg cmds) ∧
      ZoneFieldsOk cfg (runSys cfg cmds) := by
  unfold runSys
  apply foldl_inv
    (P := fun s => RunsWf s ∧ ZonesOk s ∧ ZoneFieldsOk cfg s)
  · intro s c hP
    exact ⟨sysStep_wf cfg s c hP.1, sysStep_zones cfg s c hP.1 hP.2.1,
      sysStep_fields cfg s c hP.2.2⟩
  · refine ⟨⟨?_, ?_⟩, ⟨?_, ?_, ?_⟩, ?_⟩ <;> intro r hr <;> simp [initSys] at hr

theorem foldl_add_jsOr0 (l : List ObsRecord) (init : ℚ) :
    l.foldl (fun sum d => sum + jsOr0 d.precipitation_mm) init =
      init + (l.map (fun d => d.precipitation_mm.getD 0)).sum := by
  induction l generalizing init with
  | nil => simp
  | cons a as ih =>
      simp only [List.foldl_cons, List.map_cons, List.sum_cons, ih]
      simp only [jsOr0]
      ring

theorem unackMatches_refreshUpdate (ty ty' : String)
    (rel rel' : RelatedEntity) (msg : String) (a : Alert) :
    unackMatches ty' rel' (refreshUpdate ty rel msg a) =
      unackMatches ty' rel' a := by
  unfold refreshUpdate
  split_ifs with hc
  · simp [unackMatches]
  · rfl

theorem alertStep_dedup (s : AlertState) (c : AlertCmd)
    (h : AlertsDedup s) : AlertsDedup (alertStep s c) := by
  cases c with
  | create ty rel msg =>
      by_cases hg : s.alerts.any (unackMatches ty rel) = true
      · simp only [alertStep, if_pos hg]
        intro ty' rel'
        rw [List.countP_map]
        calc (s.alerts.countP (unackMatches ty' rel' ∘ refreshUpdate ty rel msg))
            = s.alerts.countP (unackMatches ty' rel') := by
              apply List.countP_congr
              intro a _
              rw [Function.comp_apply, unackMatches_refreshUpdate]
          _ ≤ 1 := h ty' rel'
      · simp only [alertStep, if_neg hg]
        intro ty' rel'
        rw [List.countP_cons]
        by_cases hm : unackMatches ty' rel'
            { id := s.nextAlertId, alert_type := ty, related := rel,
              message := msg, acknowledged := false,
              acknowledged_by := none } = true
        · have hty : ty' = ty ∧ rel' = rel := by
            unfold unackMatches at hm
            simp at hm
            exact ⟨hm.1.symm, hm.2.symm⟩
          have hz : s.alerts.countP (unackMatches ty' rel') = 0 := by
            rw [List.countP_eq_zero]
            intro a ha hpa
            apply hg
            rw [List.any_eq_true]
            exact ⟨a, ha, by rw [← hty.1, ← hty.2]; exact hpa⟩
          rw [hz, hm]
          simp
        · rw [if_neg hm]
          simpa using h ty' rel'
  | acknowledge aid op =>
      intro ty' rel'
      simp only [alertStep]
      rw [List.countP_map]
      calc s.alerts.countP (unackMatches ty' rel' ∘ ackUpdate aid op)
          ≤ s.alerts.countP (unackMatches ty' rel') := by
            apply List.countP_mono_left
            intro a _ hpa
            rw [Function.comp_apply] at hpa
            unfold ackUpdate at hpa
            split_ifs at hpa with hc
            · exfalso
              unfold unackMatches at hpa
              simp at hpa
            · exact hpa
        _ ≤ 1 := h ty' rel'

theorem runAlerts_dedup (cmds : List AlertCmd) :
    AlertsDedup (runAlerts cmds) := by
  unfold runAlerts
  apply foldl_inv (P := AlertsDedup) alertStep_dedup
  intro ty rel
  simp [initAlerts]

theorem countActive_closeActive_self (s : DetState) (loc : Nat) :
    countActive (closeActive s loc) loc = 0 := by
  unfold countActive closeActive
  rw [List.countP_map, List.countP_eq_zero]
  intro e he h
  rw [Function.comp_apply] at h
  unfold closeUpdate at h
  split_ifs at h with hc
  · unfold isActiveAt at h; simp at h
  · exact hc h

theorem countActive_closeActive_le (s : DetState) (loc loc' : Nat) :
    countActive (closeActive s loc) loc' ≤ countActive s loc' := by
  unfold countActive closeActive
  rw [List.countP_map]
  apply List.countP_mono_left
  intro e he h
  rw [Function.comp_apply] at h
  unfold closeUpdate at h
  split_ifs at h with hc
  · unfold isActiveAt at h; simp at h
  · exact h

theorem countActive_extendActive (cfg : DetectorConfig) (s : DetState)
    (o : WeatherObs) (loc' : Nat) :
    countActive (extendActive cfg s o) loc' = countActive s loc' := by
  unfold countActive extendActive
  rw [List.countP_map]
  apply List.countP_congr
  intro e he
  rw [Function.comp_apply]
  unfold extendUpdate
  split_ifs with hc
  · unfold isActiveAt; simp
  · exact Iff.rfl

theorem countActive_openEvent (cfg : DetectorConfig) (s : DetState)
    (o : WeatherObs) (loc' : Nat) :
    countActive (openEvent cfg s o) loc' =
      countActive s loc' + (if loc' = o.location then 1 else 0) := by
  unfold countActive openEvent
  rw [List.countP_cons]
  by_cases hl : loc' = o.location
  · subst hl; simp [isActiveAt]
  · have : ¬ (o.location = loc') := fun h => hl h.symm
    simp [isActiveAt, this, hl]

theorem countActive_of_none (s : DetState) (loc : Nat)
    (h : activeEventFor s loc = none) : countActive s loc = 0 := by
  unfold activeEventFor at h
  rw [List.find?_eq_none] at h
  unfold countActive
  rw [List.countP_eq_zero]
  exact h

theorem detectorStep_single (cfg : DetectorConfig) (s : DetState)
    (o : WeatherObs) (h : SingleActive s) :
    SingleActive (detectorStep cfg s o) := by
  unfold detectorStep
  cases hae : activeEventFor s o.location with
  | none =>
      by_cases hq : qualifies cfg o = true
      · simp only [hq, if_true]
        intro loc
        rw [countActive_openEvent]
        by_cases hl : loc = o.location
        · subst hl
          rw [countActive_of_none s _ hae]
          simp
        · rw [if_neg hl]
          simpa using h loc
      · simp only [hq, if_false]
        exact h
  | some e =>
      by_cases hgap : e.last_obs_time + cfg.inactivity_gap < o.timestamp
      · simp only [if_pos hgap]
        by_cases hq : qualifies cfg o = true
        · simp only [hq, if_true]
          intro loc
          rw [countActive_openEvent]
          by_cases hl : loc = o.location
          · subst hl
            rw [countActive_closeActive_self]
            simp
          · rw [if_neg hl]
            exact le_trans (by simpa using countActive_closeActive_le s _ loc)
              (h loc)
        · simp only [hq, if_false]
          intro loc
          exact le_trans (countActive_closeActive_le s _ loc) (h loc)
      · simp only [if_neg hgap]
        by_cases hq : qualifies cfg o = true
        · simp only [hq, if_true]
          intro loc
          rw [countActive_extendActive]
          exact h loc
        · simp only [hq, if_false]
          exact h

theorem runDetector_single (cfg : DetectorConfig)
    (obss : List WeatherObs) : SingleActive (runDetector cfg obss) := by
  unfold runDetector
  apply foldl_inv (P := SingleActive) (detectorStep_single cfg)
  intro loc
  simp [initDet, countActive]

theorem detectorStep_of_active (cfg : DetectorConfig) (s : DetState)
    (o : WeatherObs) (e : RainfallEvent)
    (hae : activeEventFor s o.location = some e) :
    detectorStep cfg s o =
      if e.last_obs_time + cfg.inactivity_gap < o.timestamp then
        (if qualifies cfg o then openEvent cfg (closeActive s o.location) o
         else closeActive s o.location)
      else
        (if qualifies cfg o then extendActive cfg s o else s) := by
  unfold detectorStep
  rw [hae]

/-! ## Claim theorems -/

/-- Claim C1: every persisted `RiskZone` has `risk_value` in [0,1]
(the schema's CHECK constraint always holds), and its `risk_level` is
exactly the bucketing of `risk_value` by the configured thresholds —
never assigned independently of the numeric score; the bucketing is
monotone over the order LOW < MODERATE < HIGH < CRITICAL. -/
theorem claim_risk_value_bucketing (cfg : RiskThresholds)
    (cmds : List SysCmd) :
    (∀ z ∈ (runSys cfg cmds).zones,
        0 ≤ z.risk_value ∧ z.risk_value ≤ 1 ∧
        z.risk_level = riskLevelOf cfg z.risk_value) ∧
    (∀ v w : ℚ, v ≤ w →
        levelRank (riskLevelOf cfg v) ≤ levelRank (riskLevelOf cfg w)) :=
  ⟨(runSys_inv cfg cmds).2.2,
   fun v w hvw => riskLevelOf_monotone cfg v w hvw⟩

theorem claim_risk_value_bucketing_witness :
    zoneEx ∈ (runSys cfgEx cmdsEx).zones ∧
    (0 ≤ zoneEx.risk_value ∧ zoneEx.risk_value ≤ 1 ∧
      zoneEx.risk_level = riskLevelOf cfgEx zoneEx.risk_value) ∧
    levelRank (riskLevelOf cfgEx (1/3)) ≤
      levelRank (riskLevelOf cfgEx (2/3)) := by
  have hm : zoneEx ∈ (runSys cfgEx cmdsEx).zones := by decide
  exact ⟨hm, (claim_risk_value_bucketing cfgEx cmdsEx).1 zoneEx hm,
    (claim_risk_value_bucketing cfgEx cmdsEx).2 (1/3) (2/3) (by norm_num)⟩

/-- Claim C2: for every monitored location and every observation
sequence, at most one `RainfallEvent` is active per location at any
instant; an observation arriving within the inactivity gap of the
location's active event updates the existing row and creates no new
event row. -/
theorem claim_single_active_event :
    (∀ cfg obss, SingleActive (runDetector cfg obss)) ∧
    (∀ (cfg : DetectorConfig) (s : DetState) (o : WeatherObs)
        (e : RainfallEvent),
      activeEventFor s o.location = some e →
      o.timestamp ≤ e.last_obs_time + cfg.inactivity_gap →
      (detectorStep cfg s o).events.length = s.events.length) := by
  constructor
  · exact runDetector_single
  · intro cfg s o e hae hgap
    rw [detectorStep_of_active cfg s o e hae, if_neg (not_lt.mpr hgap)]
    by_cases hq : qualifies cfg o = true
    · rw [if_pos hq]
      unfold extendActive
      simp
    · rw [if_neg hq]

theorem claim_single_active_event_witness :
    countActive (runDetector cfgDetEx [obs1Ex, obs2Ex]) 1 ≤ 1 ∧
    (detectorStep cfgDetEx detStateEx obs2Ex).events.length =
      detStateEx.events.length := by
  constructor
  · exact claim_single_active_event.1 cfgDetEx [obs1Ex, obs2Ex] 1
  · exact claim_single_active_event.2 cfgDetEx detStateEx obs2Ex eventEx
      (by decide) (by decide)

/-- Claim C3: in every reachable dispatcher state, a `RiskZone` exists
if and only if the `SimulationRun` it references is completed: every
zone's referenced run is `completed` (so no zone references a running
or failed run), and every completed run has a zone. -/
theorem claim_riskzone_iff_completed (cfg : RiskThresholds)
    (cmds : List SysCmd) :
    (∀ z ∈ (runSys cfg cmds).zones, ∀ r ∈ (runSys cfg cmds).runs,
        r.id = z.simulation_run_id → r.status = RunStatus.completed) ∧
    (∀ z ∈ (runSys cfg cmds).zones, ∃ r ∈ (runSys cfg cmds).runs,
        r.id = z.simulation_run_id ∧ r.status = RunStatus.completed) ∧
    (∀ r ∈ (runSys cfg cmds).runs, r.status = RunStatus.completed →
        ∃ z ∈ (runSys cfg cmds).zones, z.simulation_run_id = r.id) := by
  obtain ⟨hw, hz, hf⟩ := runSys_inv cfg cmds
  obtain ⟨hz1, hz2, hz3⟩ := hz
  refine ⟨hz1, ?_, hz3⟩
  intro z hzm
  obtain ⟨r, hr, hid⟩ := hz2 z hzm
  exact ⟨r, hr, hid, hz1 z hzm r hr hid⟩

theorem claim_riskzone_iff_completed_witness :
    zoneEx ∈ (runSys cfgEx cmdsEx).zones ∧
    ∃ r ∈ (runSys cfgEx cmdsEx).runs,
      r.id = zoneEx.simulation_run_id ∧ r.status = RunStatus.completed := by
  have hm : zoneEx ∈ (runSys cfgEx cmdsEx).zones := by decide
  exact ⟨hm, (claim_riskzone_iff_completed cfgEx cmdsEx).2.1 zoneEx hm⟩

/-- Claim C4: every `SimulationRun` follows the status machine
running → {completed, failed} exactly once: any run row in a
post-transition state is an unchanged old row, a freshly dispatched row
with status `running`, or an old running row moved to a terminal
status; and a terminal row persists unchanged through every
transition (immutable once terminal, never re-entering `running`). -/
theorem claim_simrun_state_machine (cfg : RiskThresholds) (s : SysState)
    (c : SysCmd) :
    (∀ r ∈ (sysStep cfg s c).runs,
        r ∈ s.runs ∨
        (c = SysCmd.dispatch ∧
          r = { id := s.nextRunId, status := RunStatus.running }) ∨
        (∃ r0 ∈ s.runs, r.id = r0.id ∧ r0.status = RunStatus.running ∧
            (r.status = RunStatus.completed ∨
              r.status = RunStatus.failed))) ∧
    (∀ r ∈ s.runs, r.status ≠ RunStatus.running →
        r ∈ (sysStep cfg s c).runs) := by
  constructor
  · intro r hr
    cases c with
    | dispatch =>
        simp only [sysStep, List.mem_append, List.mem_singleton] at hr
        rcases hr with hr | hr
        · exact Or.inl hr
        · exact Or.inr (Or.inl ⟨rfl, hr⟩)
    | complete rid v =>
        by_cases hg : ∃ r' ∈ s.runs,
            r'.id = rid ∧ r'.status = RunStatus.running
        · simp only [sysStep, if_pos hg, List.mem_map] at hr
          obtain ⟨r0, hr0, hfr⟩ := hr
          by_cases hc : r0.id = rid ∧ r0.status = RunStatus.running
          · refine Or.inr (Or.inr ⟨r0, hr0, ?_, hc.2, ?_⟩)
            · rw [← hfr]; exact completeUpdate_id rid r0
            · left; rw [← hfr]; unfold completeUpdate; rw [if_pos hc]
          · left
            rw [← hfr]; unfold completeUpdate; rw [if_neg hc]; exact hr0
        · simp only [sysStep, if_neg hg] at hr
          exact Or.inl hr
    | fail rid =>
        by_cases hg : ∃ r' ∈ s.runs,
            r'.id = rid ∧ r'.status = RunStatus.running
        · simp only [sysStep, if_pos hg, List.mem_map] at hr
          obtain ⟨r0, hr0, hfr⟩ := hr
          by_cases hc : r0.id = rid ∧ r0.status = RunStatus.running
          · refine Or.inr (Or.inr ⟨r0, hr0, ?_, hc.2, ?_⟩)
            · rw [← hfr]; exact failUpdate_id rid r0
            · right; rw [← hfr]; unfold failUpdate; rw [if_pos hc]
          · left
            rw [← hfr]; unfold failUpdate; rw [if_neg hc]; exact hr0
        · simp only [sysStep, if_neg hg] at hr
          exact Or.inl hr
  · intro r hr hterm
    cases c with
    | dispatch =>
        simp only [sysStep, List.mem_append]
        exact Or.inl hr
    | complete rid v =>
        by_cases hg : ∃ r' ∈ s.runs,
            r'.id = rid ∧ r'.status = RunStatus.running
        · simp only [sysStep, if_pos hg]
          have hfix : completeUpdate rid r = r := by
            unfold completeUpdate
            rw [if_neg (fun hc => hterm hc.2)]
          rw [← hfix]
          exact List.mem_map_of_mem _ hr
        · simp only [sysStep, if_neg hg]; exact hr
    | fail rid =>
        by_cases hg : ∃ r' ∈ s.runs,
            r'.id = rid ∧ r'.status = RunStatus.running
        · simp only [sysStep, if_pos hg]
          have hfix : failUpdate rid r = r := by
            unfold failUpdate
            rw [if_neg (fun hc => hterm hc.2)]
          rw [← hfix]
          exact List.mem_map_of_mem _ hr
        · simp only [sysStep, if_neg hg]; exact hr

theorem claim_simrun_state_machine_witness :
    runEx ∈ sC4Ex.runs ∧ runEx.status ≠ RunStatus.running ∧
    runEx ∈ (sysStep cfgEx sC4Ex (SysCmd.fail 5)).runs := by
  refine ⟨by decide, by decide, ?_⟩
  exact (claim_simrun_state_machine cfgEx sC4Ex (SysCmd.fail 5)).2 runEx
    (by decide) (by decide)

/-- Claim C5: at most one unacknowledged alert of a given `alert_type`
for a given related entity exists at any time, and creating an alert
while a matching unacknowledged one exists refreshes it instead of
inserting a new row. -/
theorem claim_alert_dedup :
    (∀ cmds ty rel,
        (runAlerts cmds).alerts.countP (unackMatches ty rel) ≤ 1) ∧
    (∀ (s : AlertState) (ty : String) (rel : RelatedEntity)
        (msg : String),
      s.alerts.any (unackMatches ty rel) = true →
      (alertStep s (AlertCmd.create ty rel msg)).alerts.length =
        s.alerts.length) := by
  constructor
  · intro cmds ty rel; exact runAlerts_dedup cmds ty rel
  · intro s ty rel msg hg
    simp only [alertStep, if_pos hg, List.length_map]

theorem claim_alert_dedup_witness :
    (runAlerts [AlertCmd.create "high_risk" relEx "m1",
        AlertCmd.create "high_risk" relEx "m2"]).alerts.countP
      (unackMatches "high_risk" relEx) ≤ 1 ∧
    (alertStep alertStateEx
        (AlertCmd.create "high_risk" relEx "m2")).alerts.length =
      alertStateEx.alerts.length := by
  constructor
  · exact claim_alert_dedup.1 _ "high_risk" relEx
  · exact claim_alert_dedup.2 alertStateEx "high_risk" relEx "m2"
      (by decide)

/-- Claim C6: ingestion rejects and reports, and never persists, an
observation with negative precipitation or one older than the latest
committed observation for its location; every accepted observation
violates neither condition and is appended to the store. -/
theorem claim_ingest_validation (store : List WeatherObs)
    (o : WeatherObs) :
    (o.rainfall_mm < 0 →
        ingest store o =
          Except.error ValidationError.negativePrecipitation) ∧
    (∀ t : Nat, 0 ≤ o.rainfall_mm →
        latestTimestamp store o.location = some t → o.timestamp < t →
        ingest store o = Except.error ValidationError.outOfOrder) ∧
    (∀ store', ingest store o = Except.ok store' →
        0 ≤ o.rainfall_mm ∧
        (∀ t, latestTimestamp store o.location = some t →
          t ≤ o.timestamp) ∧
        store' = o :: store) := by
  refine ⟨?_, ?_, ?_⟩
  · intro hneg
    simp [ingest, hneg]
  · intro t hpos hlat hlt
    have hn : ¬ o.rainfall_mm < 0 := not_lt.mpr hpos
    simp [ingest, hn, hlat, hlt]
  · intro store' hok
    by_cases hneg : o.rainfall_mm < 0
    · rw [(by simp [ingest, hneg] :
          ingest store o =
            Except.error ValidationError.negativePrecipitation)] at hok
      exact absurd hok (by simp)
    · refine ⟨not_lt.mp hneg, ?_, ?_⟩
      · intro t ht
        by_cases hlt : o.timestamp < t
        · exfalso
          have herr : ingest store o =
              Except.error ValidationError.outOfOrder := by
            simp [ingest, hneg, ht, hlt]
          rw [herr] at hok
          exact absurd hok (by simp)
        · exact not_lt.mp hlt
      · cases hlat : latestTimestamp store o.location with
        | none =>
            have hok' : ingest store o = Except.ok (o :: store) := by
              simp [ingest, hneg, hlat]
            rw [hok'] at hok
            injection hok with h
            exact h.symm
        | some t0 =>
            by_cases hlt : o.timestamp < t0
            · exfalso
              have herr : ingest store o =
                  Except.error ValidationError.outOfOrder := by
                simp [ingest, hneg, hlat, hlt]
              rw [herr] at hok
              exact absurd hok (by simp)
            · have hok' : ingest store o = Except.ok (o :: store) := by
                simp [ingest, hneg, hlat, hlt]
              rw [hok'] at hok
              injection hok with h
              exact h.symm

theorem claim_ingest_validation_witness :
    ingest storeEx obsNegEx =
      Except.error ValidationError.negativePrecipitation ∧
    (0 ≤ obsOkEx.rainfall_mm ∧
      (∀ t, latestTimestamp storeEx obsOkEx.location = some t →
        t ≤ obsOkEx.timestamp) ∧
      obsOkEx :: storeEx = obsOkEx :: storeEx) :=
  ⟨(claim_ingest_validation storeEx obsNegEx).1 (by decide),
   (claim_ingest_validation storeEx obsOkEx).2.2 (obsOkEx :: storeEx)
     rfl⟩

/-- Claim C7: every geometry column the schema persists is declared in
WGS84 lon/lat (SRID 4326); the projected CRS the map display consumes
(EPSG:3857) is only a WMS query parameter, not a stored SRID. -/
theorem claim_storage_crs :
    (∀ col ∈ schemaGeometryColumns, col.srid = storageSrid) ∧
    storageSrid = 4326 ∧ mapViewWmsSrs = "EPSG:3857" ∧
    mapViewWmsSrs ≠ "EPSG:4326" := by
  decide

theorem claim_storage_crs_witness :
    ({ tableName := "risk_zones", columnName := "geometry",
       geometryType := "POLYGON", srid := 4326 } : GeometryColumn).srid =
      storageSrid :=
  claim_storage_crs.1
    { tableName := "risk_zones", columnName := "geometry",
      geometryType := "POLYGON", srid := 4326 }
    (by decide)

/-- Claim C8: `WeatherPanel` is total: on every input it renders
without a JS error; for `null`/`undefined` or empty input it renders
the no-data panel touching no element, and for non-empty input every
field of the latest observation is rendered through a guarded access
falling back to "N/A" or "0.0". -/
theorem claim_weatherpanel_guarded
    (weatherData : Option (List ObsRecord)) :
    (∃ v, renderWeatherPanel weatherData = Except.ok v) ∧
    ((weatherData = none ∨ weatherData = some []) →
        renderWeatherPanel weatherData =
          Except.ok WeatherPanelView.noData) ∧
    (∀ latest rest, weatherData = some (latest :: rest) →
        renderWeatherPanel weatherData = Except.ok (WeatherPanelView.panel
          { temperature := displayOrNA latest.temperature_c,
            humidity := displayOrNA latest.humidity_percent,
            lastHourRain := displayOrZero latest.precipitation_mm,
            total24h := totalPrecip ((latest :: rest).take 24),
            bars := ((latest :: rest).take 24).map
              (fun d => d.precipitation_mm) })) := by
  refine ⟨?_, ?_, ?_⟩
  · cases weatherData with
    | none => exact ⟨_, rfl⟩
    | some l =>
        cases l with
        | nil => exact ⟨_, rfl⟩
        | cons a as => exact ⟨_, rfl⟩
  · intro h
    rcases h with h | h <;> subst h <;> rfl
  · intro latest rest h
    subst h
    rfl

theorem claim_weatherpanel_guarded_witness :
    renderWeatherPanel none = Except.ok WeatherPanelView.noData ∧
    renderWeatherPanel (some [recEx]) = Except.ok (WeatherPanelView.panel
      { temperature := displayOrNA recEx.temperature_c,
        humidity := displayOrNA recEx.humidity_percent,
        lastHourRain := displayOrZero recEx.precipitation_mm,
        total24h := totalPrecip ([recEx].take 24),
        bars := ([recEx].take 24).map (fun d => d.precipitation_mm) }) :=
  ⟨(claim_weatherpanel_guarded none).2.1 (Or.inl rfl),
   (claim_weatherpanel_guarded (some [recEx])).2.2 recEx [] rfl⟩

/-- Claim C9: for every non-empty input, the 24h total displayed by
`WeatherPanel` is the sum of `precipitation_mm` over the first
min(24, length) rows, a missing value contributing 0. -/
theorem claim_weatherpanel_total24h (l : List ObsRecord) (h : l ≠ []) :
    ∃ p, renderWeatherPanel (some l) =
        Except.ok (WeatherPanelView.panel p) ∧
      p.total24h =
        ((l.take 24).map (fun d => d.precipitation_mm.getD 0)).sum := by
  cases l with
  | nil => exact absurd rfl h
  | cons a as =>
      refine ⟨_, rfl, ?_⟩
      show totalPrecip ((a :: as).take 24) = _
      unfold totalPrecip
      rw [foldl_add_jsOr0, zero_add]

theorem claim_weatherpanel_total24h_witness :
    ∃ p, renderWeatherPanel (some [recEx]) =
        Except.ok (WeatherPanelView.panel p) ∧
      p.total24h =
        (([recEx].take 24).map (fun d => d.precipitation_mm.getD 0)).sum :=
  claim_weatherpanel_total24h [recEx] (by decide)

/-- Claim C10: the two `getRiskColor` functions (in `RiskIndicator` and
in `MapView`) are extensionally equal total functions mapping LOW,
MODERATE, HIGH, CRITICAL to their colors and everything else
(including null/undefined) to the grey fallback. -/
theorem claim_getRiskColor_equiv (x : Option String) :
    getRiskColorIndicator x = getRiskColorMapView x ∧
    getRiskColorIndicator (some "LOW") = "#4CAF50" ∧
    getRiskColorIndicator (some "MODERATE") = "#FFC107" ∧
    getRiskColorIndicator (some "HIGH") = "#FF9800" ∧
    getRiskColorIndicator (some "CRITICAL") = "#F44336" ∧
    getRiskColorIndicator none = "#CCCCCC" ∧
    (∀ s : String, s ≠ "LOW" → s ≠ "MODERATE" → s ≠ "HIGH" →
        s ≠ "CRITICAL" → getRiskColorIndicator (some s) = "#CCCCCC") := by
  refine ⟨?_, by decide, by decide, by decide, by decide, rfl, ?_⟩
  · cases x with
    | none => rfl
    | some s => rfl
  · intro s h1 h2 h3 h4
    simp [getRiskColorIndicator, h1, h2, h3, h4]

theorem claim_getRiskColor_equiv_witness :
    getRiskColorIndicator (some "UNKNOWN") = "#CCCCCC" :=
  (claim_getRiskColor_equiv (some "UNKNOWN")).2.2.2.2.2.2 "UNKNOWN"
    (by decide) (by decide) (by decide) (by decide)

end DebrisFlow
